import Mathlib

/-!
Shallow embedding of `airthings/__init__.py` (pyAirthings): the data
handler `Airthings` with `update_devices` and `_request`, the module-level
`get_token`, and the dataclasses `AirthingsLocation` / `AirthingsDevice`.

JSON values (and Python `None`, which `json.loads` also produces for JSON
`null`) are modelled by `JVal`.  Python attribute/subscript semantics that
the code relies on are made explicit: `.get` on a non-dict (in particular
on `None`) raises `AttributeError`; `d[k]` on a dict missing `k` raises
`KeyError`; iterating a non-list raises `TypeError`.  Network effects are
modelled by an oracle `Env` assigning an outcome to every HTTP attempt and
every token-endpoint attempt; the handler state (`_access_token`,
`_locations`, `_devices`) is threaded explicitly, together with counters
of HTTP attempts and `get_token` invocations and a log of the URLs passed
to `_request`.  Exceptions are `Except PyErr`; state mutated before a
`raise` is preserved by returning the state alongside the outcome.
Floats carried in sensor payloads are never computed with by the code, so
numbers are embedded as integers (opaque payload).
-/

inductive JVal where
  | jnull
  | jbool (b : Bool)
  | jnum (n : Int)
  | jstr (s : String)
  | jarr (xs : List JVal)
  | jobj (fs : List (String × JVal))
deriving Repr

mutual

def JVal.decEq : (a b : JVal) → Decidable (a = b)
  | .jnull, .jnull => isTrue rfl
  | .jnull, .jbool _ => isFalse nofun
  | .jnull, .jnum _ => isFalse nofun
  | .jnull, .jstr _ => isFalse nofun
  | .jnull, .jarr _ => isFalse nofun
  | .jnull, .jobj _ => isFalse nofun
  | .jbool _, .jnull => isFalse nofun
  | .jbool a, .jbool b =>
      if h : a = b then isTrue (h ▸ rfl) else isFalse (fun hh => h (by injection hh))
  | .jbool _, .jnum _ => isFalse nofun
  | .jbool _, .jstr _ => isFalse nofun
  | .jbool _, .jarr _ => isFalse nofun
  | .jbool _, .jobj _ => isFalse nofun
  | .jnum _, .jnull => isFalse nofun
  | .jnum _, .jbool _ => isFalse nofun
  | .jnum a, .jnum b =>
      if h : a = b then isTrue (h ▸ rfl) else isFalse (fun hh => h (by injection hh))
  | .jnum _, .jstr _ => isFalse nofun
  | .jnum _, .jarr _ => isFalse nofun
  | .jnum _, .jobj _ => isFalse nofun
  | .jstr _, .jnull => isFalse nofun
  | .jstr _, .jbool _ => isFalse nofun
  | .jstr _, .jnum _ => isFalse nofun
  | .jstr a, .jstr b =>
      if h : a = b then isTrue (h ▸ rfl) else isFalse (fun hh => h (by injection hh))
  | .jstr _, .jarr _ => isFalse nofun
  | .jstr _, .jobj _ => isFalse nofun
  | .jarr _, .jnull => isFalse nofun
  | .jarr _, .jbool _ => isFalse nofun
  | .jarr _, .jnum _ => isFalse nofun
  | .jarr _, .jstr _ => isFalse nofun
  | .jarr xs, .jarr ys =>
      match JVal.decEqArr xs ys with
      | isTrue h => isTrue (h ▸ rfl)
      | isFalse h => isFalse (fun hh => h (by injection hh))
  | .jarr _, .jobj _ => isFalse nofun
  | .jobj _, .jnull => isFalse nofun
  | .jobj _, .jbool _ => isFalse nofun
  | .jobj _, .jnum _ => isFalse nofun
  | .jobj _, .jstr _ => isFalse nofun
  | .jobj _, .jarr _ => isFalse nofun
  | .jobj fs, .jobj gs =>
      match JVal.decEqObj fs gs with
      | isTrue h => isTrue (h ▸ rfl)
      | isFalse h => isFalse (fun hh => h (by injection hh))

def JVal.decEqArr : (xs ys : List JVal) → Decidable (xs = ys)
  | [], [] => isTrue rfl
  | [], _ :: _ => isFalse nofun
  | _ :: _, [] => isFalse nofun
  | x :: xs, y :: ys =>
      match JVal.decEq x y, JVal.decEqArr xs ys with
      | isTrue h1, isTrue h2 => isTrue (by rw [h1, h2])
      | isFalse h1, _ => isFalse (fun hh => h1 (by injection hh))
      | isTrue _, isFalse h2 => isFalse (fun hh => h2 (by injection hh))

def JVal.decEqObj : (fs gs : List (String × JVal)) → Decidable (fs = gs)
  | [], [] => isTrue rfl
  | [], _ :: _ => isFalse nofun
  | _ :: _, [] => isFalse nofun
  | (k, v) :: fs, (l, w) :: gs =>
      if hk : k = l then
        match JVal.decEq v w, JVal.decEqObj fs gs with
        | isTrue hv, isTrue hs => isTrue (by rw [hk, hv, hs])
        | isFalse hv, _ =>
            isFalse (fun hh => by
              simp only [List.cons.injEq, Prod.mk.injEq] at hh; exact hv hh.1.2)
        | isTrue _, isFalse hs =>
            isFalse (fun hh => by
              simp only [List.cons.injEq, Prod.mk.injEq] at hh; exact hs hh.2)
      else
        isFalse (fun hh => by
          simp only [List.cons.injEq, Prod.mk.injEq] at hh; exact hk hh.1.1)

end

instance : DecidableEq JVal := JVal.decEq

deriving instance DecidableEq for Except

/-- Python errors and library exception classes raised by the embedded
code.  `cause` records the `raise ... from err` chaining. -/
inductive Cause where
  | noCause
  | fromClientError
  | fromTimeout
deriving DecidableEq, Repr

inductive PyErr where
  | attributeError
  | keyError
  | typeError
  | airthingsError (reason : Option String) (cause : Cause)
  | airthingsConnectionError (cause : Cause)
  | airthingsAuthError (reason : String)
deriving DecidableEq, Repr

/-- Lookup of a key in a JSON object's field list (first match). -/
def fieldGet : List (String × JVal) → String → Option JVal
  | [], _ => none
  | (k, v) :: rest, key => if k = key then some v else fieldGet rest key

/-- Python `v.get(key)`: defined on dicts only (returns the value, or
`None` when absent); on `None` or any non-dict it raises
`AttributeError`. -/
def pyGet (v : JVal) (key : String) : Except PyErr JVal :=
  match v with
  | .jobj fs =>
      match fieldGet fs key with
      | some x => .ok x
      | none => .ok .jnull
  | _ => .error .attributeError

/-- Python `v[key]` for a string key: `KeyError` when a dict lacks the
key, `TypeError` when `v` is not a dict. -/
def pyIndex (v : JVal) (key : String) : Except PyErr JVal :=
  match v with
  | .jobj fs =>
      match fieldGet fs key with
      | some x => .ok x
      | none => .error .keyError
  | _ => .error .typeError

/-- Python truthiness of the values `JVal` can hold. -/
def pyTruthy : JVal → Bool
  | .jnull => false
  | .jbool b => b
  | .jnum n => n != 0
  | .jstr s => !s.isEmpty
  | .jarr xs => !xs.isEmpty
  | .jobj fs => !fs.isEmpty

/-- Python `str()` as used by the f-string interpolation of a location
identifier (the code only ever interpolates JSON strings; the other
renderings follow `str()` where simple). -/
def pyStr : JVal → String
  | .jnull => "None"
  | .jbool b => if b then "True" else "False"
  | .jnum n => toString n
  | .jstr s => s
  | .jarr _ => "[...]"
  | .jobj _ => "\x7b...\x7d"

/-- Python `d.get(k)` on a dict with `JVal` keys: the value, or `None`. -/
def dictGet (m : List (JVal × JVal)) (k : JVal) : JVal :=
  match m with
  | [] => .jnull
  | (k', v) :: rest => if k' = k then v else dictGet rest k

/-- Python `d[k] = v` on an insertion-ordered dict: update in place when
the key exists, otherwise append. -/
def dictSet {α : Type} (m : List (JVal × α)) (k : JVal) (v : α) : List (JVal × α) :=
  match m with
  | [] => [(k, v)]
  | (k', v') :: rest => if k' = k then (k, v) :: rest else (k', v') :: dictSet rest k v

/-- The constant `API_URL = "https://ext-api.airthings.com/v1/"` from the source. -/
def API_URL : String := "https://ext-api.airthings.com/v1/"

/-- Dataclass `AirthingsLocation`.  Fields hold whatever `.get` returned
(so possibly `None`). -/
structure AirthingsLocation where
  location_id : JVal
  name : JVal
deriving DecidableEq, Repr

/-- Classmethod `AirthingsLocation.init_from_response(response)`:
`cls(response.get("id"), response.get("name"))`. -/
def AirthingsLocation.init_from_response (response : JVal) :
    Except PyErr AirthingsLocation :=
  match pyGet response "id" with
  | .error e => .error e
  | .ok i =>
    match pyGet response "name" with
    | .error e => .error e
    | .ok n => .ok ⟨i, n⟩

/-- Dataclass `AirthingsDevice`. -/
structure AirthingsDevice where
  device_id : JVal
  name : JVal
  sensors : JVal
  is_active : JVal
  location_name : JVal
  device_type : JVal
  product_name : JVal
deriving DecidableEq, Repr

/-- Classmethod `AirthingsDevice.init_from_response(response, location_name, device)`:
the constructor arguments are evaluated left to right, exactly as in the
source (`response.get("segment")` is evaluated twice), and a failing
`.get` — in particular `device.get(...)` when `device` is `None` —
aborts with the corresponding Python error. -/
def AirthingsDevice.init_from_response (response location_name device : JVal) :
    Except PyErr AirthingsDevice :=
  match pyGet response "id" with
  | .error e => .error e
  | .ok i =>
    match pyGet response "segment" with
    | .error e => .error e
    | .ok seg1 =>
      match pyGet seg1 "name" with
      | .error e => .error e
      | .ok nm =>
        match pyGet response "data" with
        | .error e => .error e
        | .ok dat =>
          match pyGet response "segment" with
          | .error e => .error e
          | .ok seg2 =>
            match pyGet seg2 "isActive" with
            | .error e => .error e
            | .ok act =>
              match pyGet device "deviceType" with
              | .error e => .error e
              | .ok dt =>
                match pyGet device "productName" with
                | .error e => .error e
                | .ok pn => .ok ⟨i, nm, dat, act, location_name, dt, pn⟩

/-- Outcome of one network attempt: an HTTP response (status, reason and
already-parsed JSON body, `await response.json()` / `json.loads(text)`),
an `aiohttp.ClientError`, or an `asyncio.TimeoutError`. -/
inductive NetAttempt where
  | ok (status : Nat) (reason : String) (body : JVal)
  | clientError
  | timeout
deriving DecidableEq, Repr

/-- A successful response object as seen by the callers (`.status`,
`.reason`, `.json()`). -/
structure Response where
  status : Nat
  reason : String
  body : JVal
deriving DecidableEq, Repr

/-- Network oracle: `token j i` is the outcome of the `i`-th
token-endpoint attempt of the `j`-th `get_token` invocation; `http n` is
the outcome of the `n`-th HTTP attempt issued by `_request`. -/
structure Env where
  token : Nat → Nat → NetAttempt
  http : Nat → NetAttempt

/-- Module function `get_token(websession, client_id, secret, retry=3, timeout=10)`:
transport error or timeout retries while `retry > 0` (with `retry - 1`);
exhaustion raises `AirthingsConnectionError`; a non-200 status raises
`AirthingsAuthError(reason)`; a 200 returns
`token_data.get("access_token")` (so `None` when the field is absent).
`att` is the attempt oracle of this invocation, `i` the attempt index. -/
def get_token (att : Nat → NetAttempt) : (i retry : Nat) → Except PyErr JVal
  | i, retry =>
    match att i with
    | .ok status reason body =>
        if status ≠ 200 then .error (.airthingsAuthError reason)
        else pyGet body "access_token"
    | .clientError =>
        match retry with
        | 0 => .error (.airthingsConnectionError .fromClientError)
        | r + 1 => get_token att (i + 1) r
    | .timeout =>
        match retry with
        | 0 => .error (.airthingsConnectionError .fromTimeout)
        | r + 1 => get_token att (i + 1) r

/-- Mutable state of an `Airthings` instance, extended with observation
counters: `httpIdx` counts the HTTP attempts issued so far, `tokIdx` the
`get_token` invocations so far, and `urls` logs, in order, the `url`
argument of every `_request` invocation (including retry recursions). -/
structure AirthingsState where
  access_token : JVal
  locations : List AirthingsLocation
  devices : List (JVal × JVal)
  httpIdx : Nat
  tokIdx : Nat
  urls : List String
deriving DecidableEq, Repr

namespace Airthings

/-- The token block at the top of `_request`: when `self._access_token is
None`, call `get_token` (with its default `retry=3`) and store the
result.  Errors from `get_token` propagate out of `_request`. -/
def _ensureToken (env : Env) (st : AirthingsState) :
    AirthingsState × Except PyErr JVal :=
  if st.access_token = JVal.jnull then
    match get_token (env.token st.tokIdx) 0 3 with
    | .error e => ({ st with tokIdx := st.tokIdx + 1 }, .error e)
    | .ok t => ({ st with access_token := t, tokIdx := st.tokIdx + 1 }, .ok t)
  else (st, .ok st.access_token)

/-- Method `Airthings._request(url, json_data=None, retry=3)`.  Returns the
final state together with: `.ok (some r)` for a 200 response `r`,
`.ok none` for the `return None` taken when no token could be acquired,
or `.error e` for a raised exception.  The branch structure mirrors the
source: non-200 with `retry > 0` and status `≠ 429` clears the token and
recurses with `retry - 1`; otherwise a non-200 raises `AirthingsError(reason)`;
`ClientError` clears the token and raises `AirthingsError from err`;
`TimeoutError` clears the token, recurses while `retry > 0`, else raises
`AirthingsError from err`. -/
def _request (env : Env) (url : String) (json_data : Option JVal) :
    (retry : Nat) → AirthingsState → AirthingsState × Except PyErr (Option Response)
  | retry, st₀ =>
    let st₁ := { st₀ with urls := st₀.urls ++ [url] }
    match _ensureToken env st₁ with
    | (st, .error e) => (st, .error e)
    | (st, .ok t) =>
      if t = JVal.jnull then (st, .ok none)
      else
        match env.http st.httpIdx with
        | .ok status reason body =>
          let st := { st with httpIdx := st.httpIdx + 1 }
          if status = 200 then (st, .ok (some ⟨status, reason, body⟩))
          else
            match retry with
            | 0 => (st, .error (.airthingsError (some reason) .noCause))
            | r + 1 =>
              if status = 429 then (st, .error (.airthingsError (some reason) .noCause))
              else _request env url json_data r { st with access_token := JVal.jnull }
        | .clientError =>
          ({ st with httpIdx := st.httpIdx + 1, access_token := JVal.jnull },
           .error (.airthingsError none .fromClientError))
        | .timeout =>
          let st := { st with httpIdx := st.httpIdx + 1, access_token := JVal.jnull }
          match retry with
          | 0 => (st, .error (.airthingsError none .fromTimeout))
          | r + 1 => _request env url json_data r st

end Airthings

/-- Python `for x in v`: the element list of a JSON array; iterating
`None` (or any other non-list the code could meet here) raises
`TypeError`.  (CPython would iterate the characters of a string or the
keys of a dict; those payload shapes never occur for the endpoints
modelled, so they are folded into `TypeError`.) -/
def pyIter (v : JVal) : Except PyErr (List JVal) :=
  match v with
  | .jarr xs => .ok xs
  | _ => .error .typeError

/-- The loop `for location in ...: self._locations.append(
AirthingsLocation.init_from_response(location))`: returns the (possibly
partial) appended list and the first error, if any. -/
def buildLocations : List JVal → List AirthingsLocation × Option PyErr
  | [] => ([], none)
  | r :: rs =>
    match AirthingsLocation.init_from_response r with
    | .error e => ([], some e)
    | .ok l =>
      let (ls, e?) := buildLocations rs
      (l :: ls, e?)

/-- The loop `for device in ...: self._devices[device['id']] = device`:
accumulates the dict, stopping at the first error. -/
def buildDevices : List JVal → List (JVal × JVal) → List (JVal × JVal) × Option PyErr
  | [], acc => (acc, none)
  | d :: ds, acc =>
    match pyIndex d "id" with
    | .error e => (acc, some e)
    | .ok i => buildDevices ds (dictSet acc i d)

/-- The inner loop of `update_devices`:
`for device in devices: res[device.get('id')] =
AirthingsDevice.init_from_response(device, location.name,
self._devices.get(id))`.  `cache` is `self._devices`. -/
def addDevices (locName : JVal) (cache : List (JVal × JVal)) :
    List JVal → List (JVal × AirthingsDevice) →
    List (JVal × AirthingsDevice) × Option PyErr
  | [], res => (res, none)
  | d :: ds, res =>
    match pyGet d "id" with
    | .error e => (res, some e)
    | .ok i =>
      match AirthingsDevice.init_from_response d locName (dictGet cache i) with
      | .error e => (res, some e)
      | .ok dev => addDevices locName cache ds (dictSet res i dev)

/-- The URL built for a location's latest samples:
`API_URL + f"/locations/{location.location_id}/latest-samples"`. -/
def latestSamplesUrl (location_id : JVal) : String :=
  API_URL ++ ("/locations/" ++ (pyStr location_id ++ "/latest-samples"))

namespace Airthings

/-- The per-location loop of `update_devices` over `self._locations`:
skip falsy identifiers before issuing the request; skip a `None`
response or a `None` body; on a truthy `devices` list merge the entries
into `res`; otherwise just log. -/
def sampleLoop (env : Env) :
    List AirthingsLocation → AirthingsState → List (JVal × AirthingsDevice) →
    AirthingsState × Except PyErr (List (JVal × AirthingsDevice))
  | [], st, res => (st, .ok res)
  | loc :: rest, st, res =>
    if pyTruthy loc.location_id then
      match _request env (latestSamplesUrl loc.location_id) none 3 st with
      | (st, .error e) => (st, .error e)
      | (st, .ok none) => sampleLoop env rest st res
      | (st, .ok (some response)) =>
        if response.body = JVal.jnull then sampleLoop env rest st res
        else
          match pyGet response.body "devices" with
          | .error e => (st, .error e)
          | .ok devs =>
            if pyTruthy devs then
              match pyIter devs with
              | .error e => (st, .error e)
              | .ok items =>
                match addDevices loc.name st.devices items res with
                | (_, some e) => (st, .error e)
                | (res, none) => sampleLoop env rest st res
            else sampleLoop env rest st res
    else sampleLoop env rest st res

/-- The `if not self._locations:` block of `update_devices`: fetch
`API_URL + "locations"`, call `.json()` on the response (raising
`AttributeError` when `_request` returned `None`), reset
`self._locations`, then iterate `json_data.get("locations")`. -/
def locationsPhase (env : Env) (st : AirthingsState) : AirthingsState × Option PyErr :=
  if st.locations = [] then
    match _request env (API_URL ++ "locations") none 3 st with
    | (st, .error e) => (st, some e)
    | (st, .ok none) => (st, some .attributeError)
    | (st, .ok (some response)) =>
      let st := { st with locations := [] }
      match pyGet response.body "locations" with
      | .error e => (st, some e)
      | .ok v =>
        match pyIter v with
        | .error e => (st, some e)
        | .ok items =>
          let (ls, e?) := buildLocations items
          ({ st with locations := ls }, e?)
  else (st, none)

/-- The `if not self._devices:` block of `update_devices`. -/
def devicesPhase (env : Env) (st : AirthingsState) : AirthingsState × Option PyErr :=
  if st.devices = [] then
    match _request env (API_URL ++ "devices") none 3 st with
    | (st, .error e) => (st, some e)
    | (st, .ok none) => (st, some .attributeError)
    | (st, .ok (some response)) =>
      let st := { st with devices := [] }
      match pyGet response.body "devices" with
      | .error e => (st, some e)
      | .ok v =>
        match pyIter v with
        | .error e => (st, some e)
        | .ok items =>
          let (ds, e?) := buildDevices items []
          ({ st with devices := ds }, e?)
  else (st, none)

/-- Method `Airthings.update_devices()`: populate the two caches when empty,
then run the per-location sampling loop and return `res`. -/
def update_devices (env : Env) (st : AirthingsState) :
    AirthingsState × Except PyErr (List (JVal × AirthingsDevice)) :=
  match locationsPhase env st with
  | (st, some e) => (st, .error e)
  | (st, none) =>
    match devicesPhase env st with
    | (st, some e) => (st, .error e)
    | (st, none) => sampleLoop env st.locations st []

end Airthings

open Airthings

/-! Concrete scenarios used by witnesses and counterexamples. -/

/-- A token endpoint that always answers 200 with `access_token = "tok123"`. -/
def tokenOK : Nat → Nat → NetAttempt :=
  fun _ _ => NetAttempt.ok 200 "OK" (JVal.jobj [("access_token", JVal.jstr "tok123")])

/-- Fresh handler state right after `__init__`, with a cached token. -/
def stReady : AirthingsState :=
  ⟨JVal.jstr "tok123", [], [], 0, 0, []⟩

/-- Every data request answers 429. -/
def env429 : Env := ⟨tokenOK, fun _ => NetAttempt.ok 429 "Too Many Requests" JVal.jnull⟩

/-- Every data request fails with `aiohttp.ClientError`. -/
def envClientErr : Env := ⟨tokenOK, fun _ => NetAttempt.clientError⟩

/-- Every data request times out. -/
def envTimeout : Env := ⟨tokenOK, fun _ => NetAttempt.timeout⟩

/-- C3: a request attempt that receives HTTP 429 raises
`AirthingsError` at once — exactly one HTTP attempt is made, no retry is
attempted whatever the remaining budget, and no token acquisition
happens. -/
theorem request_429_no_retry (env : Env) (url : String) (jd : Option JVal)
    (retry : Nat) (st : AirthingsState) (r : String) (b : JVal)
    (htok : st.access_token ≠ JVal.jnull)
    (hhttp : env.http st.httpIdx = NetAttempt.ok 429 r b) :
    (_request env url jd retry st).2 =
      Except.error (PyErr.airthingsError (some r) Cause.noCause) ∧
    (_request env url jd retry st).1.httpIdx = st.httpIdx + 1 ∧
    (_request env url jd retry st).1.tokIdx = st.tokIdx := by
  cases retry <;> simp [_request, _ensureToken, htok, hhttp]

theorem request_429_no_retry_witness :
    (_request env429 "u" none 3 stReady).2 =
      Except.error (PyErr.airthingsError (some "Too Many Requests") Cause.noCause) ∧
    (_request env429 "u" none 3 stReady).1.httpIdx = stReady.httpIdx + 1 ∧
    (_request env429 "u" none 3 stReady).1.tokIdx = stReady.tokIdx :=
  request_429_no_retry env429 "u" none 3 stReady "Too Many Requests" JVal.jnull
    (by decide) (by decide)

/-- C4: a transport-level `ClientError` clears the cached token and
raises `AirthingsError from err` after exactly one HTTP attempt —
no retry at this layer even when budget remains. -/
theorem request_transport_error_no_retry (env : Env) (url : String) (jd : Option JVal)
    (retry : Nat) (st : AirthingsState)
    (htok : st.access_token ≠ JVal.jnull)
    (hhttp : env.http st.httpIdx = NetAttempt.clientError) :
    (_request env url jd retry st).2 =
      Except.error (PyErr.airthingsError none Cause.fromClientError) ∧
    (_request env url jd retry st).1.httpIdx = st.httpIdx + 1 ∧
    (_request env url jd retry st).1.access_token = JVal.jnull ∧
    (_request env url jd retry st).1.tokIdx = st.tokIdx := by
  simp [_request, _ensureToken, htok, hhttp]

theorem request_transport_error_no_retry_witness :
    (_request envClientErr "u" none 3 stReady).2 =
      Except.error (PyErr.airthingsError none Cause.fromClientError) ∧
    (_request envClientErr "u" none 3 stReady).1.httpIdx = stReady.httpIdx + 1 ∧
    (_request envClientErr "u" none 3 stReady).1.access_token = JVal.jnull ∧
    (_request envClientErr "u" none 3 stReady).1.tokIdx = stReady.tokIdx :=
  request_transport_error_no_retry envClientErr "u" none 3 stReady (by decide) (by decide)

/-- C2 (amended): with the default budget `retry=3`, a request whose
every attempt times out makes exactly 4 HTTP attempts in total (the
initial attempt plus 3 retries), invalidates the cached token on each
timeout (re-acquiring it for every retry attempt, hence 3 further
`get_token` invocations when a valid token was cached), and then raises
`AirthingsError` chained from the `TimeoutError`. -/
theorem request_timeout_exhaustion_four_attempts (env : Env) (url : String)
    (jd : Option JVal) (st : AirthingsState) (t : JVal)
    (htok : st.access_token ≠ JVal.jnull)
    (hhttp : ∀ n, env.http n = NetAttempt.timeout)
    (hget : ∀ j, get_token (env.token j) 0 3 = Except.ok t)
    (ht : t ≠ JVal.jnull) :
    (_request env url jd 3 st).2 =
      Except.error (PyErr.airthingsError none Cause.fromTimeout) ∧
    (_request env url jd 3 st).1.httpIdx = st.httpIdx + 4 ∧
    (_request env url jd 3 st).1.tokIdx = st.tokIdx + 3 ∧
    (_request env url jd 3 st).1.access_token = JVal.jnull := by
  simp [_request, _ensureToken, htok, hhttp, hget, ht]

theorem request_timeout_exhaustion_four_attempts_witness :
    (_request envTimeout "u" none 3 stReady).2 =
      Except.error (PyErr.airthingsError none Cause.fromTimeout) ∧
    (_request envTimeout "u" none 3 stReady).1.httpIdx = stReady.httpIdx + 4 ∧
    (_request envTimeout "u" none 3 stReady).1.tokIdx = stReady.tokIdx + 3 ∧
    (_request envTimeout "u" none 3 stReady).1.access_token = JVal.jnull :=
  request_timeout_exhaustion_four_attempts envTimeout "u" none stReady
    (JVal.jstr "tok123") (by decide) (fun _ => rfl) (fun _ => rfl) (by decide)

/-- C2 (counterexample to the claim as stated): under the default budget
of 3 and all-timeout attempts, the executor does raise `AirthingsError`,
but after 4 attempts, not 3. -/
theorem request_timeout_three_attempts_cex :
    (_request envTimeout "u" none 3 stReady).1.httpIdx ≠ stReady.httpIdx + 3 ∧
    (_request envTimeout "u" none 3 stReady).1.httpIdx = stReady.httpIdx + 4 ∧
    (_request envTimeout "u" none 3 stReady).2 =
      Except.error (PyErr.airthingsError none Cause.fromTimeout) := by
  decide

/-- C7: with no cached token, a 200 token response whose body lacks the
`access_token` field makes `get_token` return `None` (not an error), and
`_request` then returns `None` without issuing its HTTP call (the HTTP
attempt counter does not move). -/
theorem token_missing_field_request_returns_none (env : Env) (url : String)
    (jd : Option JVal) (retry : Nat) (st : AirthingsState) (r : String)
    (fs : List (String × JVal))
    (htok : st.access_token = JVal.jnull)
    (ha : env.token st.tokIdx 0 = NetAttempt.ok 200 r (JVal.jobj fs))
    (hf : fieldGet fs "access_token" = none) :
    get_token (env.token st.tokIdx) 0 3 = Except.ok JVal.jnull ∧
    (_request env url jd retry st).2 = Except.ok none ∧
    (_request env url jd retry st).1.httpIdx = st.httpIdx ∧
    (_request env url jd retry st).1.tokIdx = st.tokIdx + 1 := by
  have hg : get_token (env.token st.tokIdx) 0 3 = Except.ok JVal.jnull := by
    simp [get_token, ha, pyGet, hf]
  refine ⟨hg, ?_, ?_, ?_⟩ <;> simp [_request, _ensureToken, htok, hg]

/-- A token endpoint whose 200 body has no `access_token` field. -/
def envNoTokenField : Env :=
  ⟨fun _ _ => NetAttempt.ok 200 "OK" (JVal.jobj [("foo", JVal.jstr "x")]),
   fun _ => NetAttempt.ok 200 "OK" JVal.jnull⟩

/-- Fresh handler state right after `__init__` (no cached token). -/
def stFresh : AirthingsState := ⟨JVal.jnull, [], [], 0, 0, []⟩

theorem token_missing_field_request_returns_none_witness :
    get_token (envNoTokenField.token stFresh.tokIdx) 0 3 = Except.ok JVal.jnull ∧
    (_request envNoTokenField "u" none 3 stFresh).2 = Except.ok none ∧
    (_request envNoTokenField "u" none 3 stFresh).1.httpIdx = stFresh.httpIdx ∧
    (_request envNoTokenField "u" none 3 stFresh).1.tokIdx = stFresh.tokIdx + 1 :=
  token_missing_field_request_returns_none envNoTokenField "u" none 3 stFresh
    "OK" [("foo", JVal.jstr "x")] rfl rfl rfl

/-- C8: with a valid cached token, a first successful request leaves the
token unchanged, a second consecutive request also succeeds, and neither
triggers any token acquisition (the `get_token` invocation counter never
moves). -/
theorem token_reuse_no_second_acquisition (env : Env) (u1 u2 : String)
    (st : AirthingsState) (r1 r2 : String) (b1 b2 : JVal)
    (htok : st.access_token ≠ JVal.jnull)
    (h1 : env.http st.httpIdx = NetAttempt.ok 200 r1 b1)
    (h2 : env.http (st.httpIdx + 1) = NetAttempt.ok 200 r2 b2) :
    (_request env u1 none 3 st).2 = Except.ok (some ⟨200, r1, b1⟩) ∧
    (_request env u1 none 3 st).1.access_token = st.access_token ∧
    (_request env u2 none 3 (_request env u1 none 3 st).1).2 =
      Except.ok (some ⟨200, r2, b2⟩) ∧
    (_request env u2 none 3 (_request env u1 none 3 st).1).1.tokIdx = st.tokIdx := by
  simp [_request, _ensureToken, htok, h1, h2]

/-- Every data request answers 200 with a null body. -/
def envOK200 : Env := ⟨tokenOK, fun _ => NetAttempt.ok 200 "OK" JVal.jnull⟩

theorem token_reuse_no_second_acquisition_witness :
    (_request envOK200 "u1" none 3 stReady).2 =
      Except.ok (some ⟨200, "OK", JVal.jnull⟩) ∧
    (_request envOK200 "u1" none 3 stReady).1.access_token = stReady.access_token ∧
    (_request envOK200 "u2" none 3 (_request envOK200 "u1" none 3 stReady).1).2 =
      Except.ok (some ⟨200, "OK", JVal.jnull⟩) ∧
    (_request envOK200 "u2" none 3
      (_request envOK200 "u1" none 3 stReady).1).1.tokIdx = stReady.tokIdx :=
  token_reuse_no_second_acquisition envOK200 "u1" "u2" stReady "OK" "OK"
    JVal.jnull JVal.jnull (by decide) rfl rfl

/-- C10: the null-response tolerance does not extend to the catalog
fetches: when token acquisition yields no token (so `_request` returns
`None`) during the locations fetch — or during the devices fetch — the
update calls `.json()` on that `None` response and fails with
`AttributeError` instead of skipping the cycle or returning a partial
result. -/
theorem catalog_fetch_null_response_raises (env : Env) (st : AirthingsState)
    (htok : st.access_token = JVal.jnull)
    (hget : get_token (env.token st.tokIdx) 0 3 = Except.ok JVal.jnull) :
    (st.locations = [] →
      (update_devices env st).2 = Except.error PyErr.attributeError) ∧
    (st.locations ≠ [] → st.devices = [] →
      (update_devices env st).2 = Except.error PyErr.attributeError) := by
  constructor
  · intro hl
    simp [update_devices, locationsPhase, devicesPhase, _request, _ensureToken,
      htok, hget, hl]
  · intro hl hd
    simp [update_devices, locationsPhase, devicesPhase, _request, _ensureToken,
      htok, hget, hl, hd]

theorem catalog_fetch_null_response_raises_witness :
    stFresh.locations = [] ∧
    (update_devices envNoTokenField stFresh).2 = Except.error PyErr.attributeError :=
  ⟨rfl, (catalog_fetch_null_response_raises envNoTokenField stFresh rfl
    (by decide)).1 rfl⟩

/-- The latest-samples entry for device `dev-1` (present in the sample
payload). -/
def devEntryDev1 : JVal :=
  JVal.jobj
    [("id", JVal.jstr "dev-1"),
     ("segment", JVal.jobj [("name", JVal.jstr "Bedroom"), ("isActive", JVal.jbool true)]),
     ("data", JVal.jobj [("radon", JVal.jnum 34)])]

/-- A latest-samples payload listing exactly `dev-1`. -/
def samplePayloadDev1 : JVal := JVal.jobj [("devices", JVal.jarr [devEntryDev1])]

/-- Every data request answers 200 with the `dev-1` sample payload. -/
def envDev1 : Env := ⟨tokenOK, fun _ => NetAttempt.ok 200 "OK" samplePayloadDev1⟩

/-- Populated catalog whose device-descriptor cache does NOT contain
`dev-1`. -/
def stNoDescriptor : AirthingsState :=
  ⟨JVal.jstr "tok123", [⟨JVal.jstr "loc1", JVal.jstr "Home"⟩],
   [(JVal.jstr "other-dev", JVal.jobj [("deviceType", JVal.jstr "wave")])],
   0, 0, []⟩

/-- C1 (code behaviour at the claim's input): when a device appears in a
location's latest-samples payload but its identifier is absent from the
descriptor cache, `self._devices.get(id)` yields `None`, and
`AirthingsDevice.init_from_response` then evaluates `None.get('deviceType')`,
so the whole update raises `AttributeError` — no `Device` with null
`deviceType`/`productName` is returned. -/
theorem update_missing_descriptor_raises :
    dictGet stNoDescriptor.devices (JVal.jstr "dev-1") = JVal.jnull ∧
    AirthingsDevice.init_from_response devEntryDev1 (JVal.jstr "Home") JVal.jnull =
      Except.error PyErr.attributeError ∧
    (update_devices envDev1 stNoDescriptor).2 = Except.error PyErr.attributeError := by
  decide

/-- Populated catalog with one location `loc1` and a nonempty descriptor
cache, fresh URL log. -/
def stLoc1 : AirthingsState :=
  ⟨JVal.jstr "tok123", [⟨JVal.jstr "loc1", JVal.jstr "Home"⟩],
   [(JVal.jstr "d", JVal.jobj [])], 0, 0, []⟩

/-- C9 (code behaviour at the claim's input): the URL built for a
location's latest samples is `API_URL + f"/locations/{id}/latest-samples"`,
and since `API_URL` already ends in a slash the update pass requests
`.../v1//locations/loc1/latest-samples` — a double slash, not the
single-slash URL the claim states. -/
theorem latest_samples_url_double_slash :
    latestSamplesUrl (JVal.jstr "loc1") =
      "https://ext-api.airthings.com/v1//locations/loc1/latest-samples" ∧
    latestSamplesUrl (JVal.jstr "loc1") ≠
      "https://ext-api.airthings.com/v1/locations/loc1/latest-samples" ∧
    (update_devices envOK200 stLoc1).1.urls =
      ["https://ext-api.airthings.com/v1//locations/loc1/latest-samples"] ∧
    (update_devices envOK200 stLoc1).2 = Except.ok [] := by
  decide

/-- Fields of the handler state that the token block never touches:
`_ensureToken` only reads or writes `access_token` and `tokIdx`. -/
theorem ensureToken_fields (env : Env) (st : AirthingsState) :
    (_ensureToken env st).1.locations = st.locations ∧
    (_ensureToken env st).1.devices = st.devices ∧
    (_ensureToken env st).1.urls = st.urls := by
  unfold Airthings._ensureToken
  split
  · split <;> simp
  · simp

/-- Frame facts about `_request`: it never touches the two caches, the
URLs it appends to the log are all equal to its `url` argument, the log
only grows, and its own `url` is always logged. -/
theorem request_fields (env : Env) (url : String) (jd : Option JVal) :
    ∀ (retry : Nat) (st : AirthingsState),
      (_request env url jd retry st).1.locations = st.locations ∧
      (_request env url jd retry st).1.devices = st.devices ∧
      (∀ u ∈ (_request env url jd retry st).1.urls, u ∈ st.urls ∨ u = url) ∧
      (∀ u ∈ st.urls, u ∈ (_request env url jd retry st).1.urls) ∧
      url ∈ (_request env url jd retry st).1.urls := by
  intro retry st
  induction retry, st using Airthings._request.induct env url jd with
  | case1 retry st₀ st₁ st e hens =>
      have hfe := ensureToken_fields env { st₀ with urls := st₀.urls ++ [url] }
      rw [hens] at hfe
      rw [Airthings._request]
      simp_all [List.mem_append]
  | case2 retry st₀ st₁ st hens =>
      have hfe := ensureToken_fields env { st₀ with urls := st₀.urls ++ [url] }
      rw [hens] at hfe
      rw [Airthings._request]
      simp_all [List.mem_append]
  | case3 retry st₀ st₁ st t hens ht r b hhttp =>
      have hfe := ensureToken_fields env { st₀ with urls := st₀.urls ++ [url] }
      rw [hens] at hfe
      rw [Airthings._request]
      simp_all [List.mem_append]
  | case4 st₀ st₁ st t hens ht status r b hhttp hs200 =>
      have hfe := ensureToken_fields env { st₀ with urls := st₀.urls ++ [url] }
      rw [hens] at hfe
      rw [Airthings._request]
      simp_all [List.mem_append]
  | case5 st₀ st₁ st t hens ht r b rr hhttp h200 =>
      have hfe := ensureToken_fields env { st₀ with urls := st₀.urls ++ [url] }
      rw [hens] at hfe
      rw [Airthings._request]
      simp_all [List.mem_append]
  | case6 st₀ st₁ st t hens ht status r b hhttp st2 hs200 rr h429 ih =>
      have hfe := ensureToken_fields env { st₀ with urls := st₀.urls ++ [url] }
      rw [hens] at hfe
      rw [Airthings._request]
      simp_all [List.mem_append]
  | case7 retry st₀ st₁ st t hens ht hhttp =>
      have hfe := ensureToken_fields env { st₀ with urls := st₀.urls ++ [url] }
      rw [hens] at hfe
      rw [Airthings._request]
      simp_all [List.mem_append]
  | case8 st₀ st₁ st t hens ht hhttp =>
      have hfe := ensureToken_fields env { st₀ with urls := st₀.urls ++ [url] }
      rw [hens] at hfe
      rw [Airthings._request]
      simp_all [List.mem_append]
  | case9 st₀ st₁ st t hens ht hhttp st2 rr ih =>
      have hfe := ensureToken_fields env { st₀ with urls := st₀.urls ++ [url] }
      rw [hens] at hfe
      obtain ⟨ih1, ih2, ih3, ih4, ih5⟩ := ih
      have hst2 : st2 =
          ⟨JVal.jnull, st.locations, st.devices, st.httpIdx + 1, st.tokIdx, st.urls⟩ := rfl
      rw [hst2] at ih1 ih2 ih3 ih4 ih5
      rw [Airthings._request]
      simp_all [List.mem_append]

/-- Relation between the handler state before and after a piece of the
per-location sampling loop: the two caches are untouched, every new URL
in the log is some latest-samples URL, and the log only grows. -/
def SampleFrame (a b : AirthingsState) : Prop :=
  b.locations = a.locations ∧ b.devices = a.devices ∧
  (∀ u ∈ b.urls, u ∈ a.urls ∨ ∃ l, u = latestSamplesUrl l) ∧
  (∀ u ∈ a.urls, u ∈ b.urls)

theorem SampleFrame.rfl' (a : AirthingsState) : SampleFrame a a :=
  ⟨rfl, rfl, fun _ hu => Or.inl hu, fun _ hu => hu⟩

theorem SampleFrame.trans' {a b c : AirthingsState}
    (h1 : SampleFrame a b) (h2 : SampleFrame b c) : SampleFrame a c := by
  obtain ⟨l1, d1, n1, m1⟩ := h1
  obtain ⟨l2, d2, n2, m2⟩ := h2
  refine ⟨l2.trans l1, d2.trans d1, fun u hu => ?_, fun u hu => m2 u (m1 u hu)⟩
  rcases n2 u hu with h | h
  · exact n1 u h
  · exact Or.inr h

theorem sample_request_frame (env : Env) (lid : JVal) (jd : Option JVal)
    (retry : Nat) (st : AirthingsState) :
    SampleFrame st (_request env (latestSamplesUrl lid) jd retry st).1 := by
  obtain ⟨h1, h2, h3, h4, _⟩ := request_fields env (latestSamplesUrl lid) jd retry st
  refine ⟨h1, h2, fun u hu => ?_, h4⟩
  rcases h3 u hu with h | h
  · exact Or.inl h
  · exact Or.inr ⟨lid, h⟩

/-- The per-location sampling loop satisfies the frame relation for any
environment, location list, starting state and accumulator. -/
theorem sampleLoop_frame (env : Env) :
    ∀ (locs : List AirthingsLocation) (st : AirthingsState)
      (res : List (JVal × AirthingsDevice)),
      SampleFrame st (sampleLoop env locs st res).1 := by
  intro locs
  induction locs with
  | nil => intro st res; rw [Airthings.sampleLoop]; exact SampleFrame.rfl' st
  | cons loc rest ih =>
    intro st res
    rw [Airthings.sampleLoop]
    split
    · split
      all_goals rename_i heq
      · have hf := sample_request_frame env loc.location_id none 3 st
        rw [heq] at hf
        exact hf
      · have hf := sample_request_frame env loc.location_id none 3 st
        rw [heq] at hf
        exact hf.trans' (ih _ _)
      · have hf := sample_request_frame env loc.location_id none 3 st
        rw [heq] at hf
        split
        · exact hf.trans' (ih _ _)
        · split
          · exact hf
          · split
            · split
              · exact hf
              · split
                · exact hf
                · exact hf.trans' (ih _ _)
            · exact hf.trans' (ih _ _)
    · exact ih st res

/-- When the locations cache is empty, the locations fetch is issued:
its URL ends up in the log of the locations phase. -/
theorem locationsPhase_logs (env : Env) (st : AirthingsState)
    (hl : st.locations = []) :
    API_URL ++ "locations" ∈ (locationsPhase env st).1.urls := by
  have hm := (request_fields env (API_URL ++ "locations") none 3 st).2.2.2.2
  rw [Airthings.locationsPhase, if_pos hl]
  split
  all_goals rename_i heq
  · rw [heq] at hm; exact hm
  · rw [heq] at hm; exact hm
  · rw [heq] at hm
    split
    · simpa using hm
    · split
      · simpa using hm
      · split
        simpa using hm

/-- The devices phase never removes entries from the URL log. -/
theorem devicesPhase_urls_mono (env : Env) (st : AirthingsState) :
    ∀ u ∈ st.urls, u ∈ (devicesPhase env st).1.urls := by
  rw [Airthings.devicesPhase]
  split
  · have hm := (request_fields env (API_URL ++ "devices") none 3 st).2.2.2.1
    split
    all_goals rename_i heq
    · rw [heq] at hm; exact hm
    · rw [heq] at hm; exact hm
    · rw [heq] at hm
      split
      · intro u hu; simpa using hm u hu
      · split
        · intro u hu; simpa using hm u hu
        · split
          intro u hu; simpa using hm u hu
  · intro u hu; exact hu

/-- Length of a latest-samples URL, used to separate it from the two
catalog URLs (whose lengths are 42 and 40). -/
theorem latestSamplesUrl_length (l : JVal) :
    (latestSamplesUrl l).length = 59 + (pyStr l).length := by
  have e1 : API_URL.length = 33 := rfl
  have e2 : ("/locations/" : String).length = 11 := rfl
  have e3 : ("/latest-samples" : String).length = 15 := rfl
  rw [latestSamplesUrl, String.length_append, String.length_append,
    String.length_append, e1, e2, e3]
  omega

/-- When the devices cache is empty, the devices fetch is issued: its
URL ends up in the log of the devices phase. -/
theorem devicesPhase_logs (env : Env) (st : AirthingsState)
    (hd : st.devices = []) :
    API_URL ++ "devices" ∈ (devicesPhase env st).1.urls := by
  have hm := (request_fields env (API_URL ++ "devices") none 3 st).2.2.2.2
  rw [Airthings.devicesPhase, if_pos hd]
  split
  all_goals rename_i heq
  · rw [heq] at hm; exact hm
  · rw [heq] at hm; exact hm
  · rw [heq] at hm
    split
    · simpa using hm
    · split
      · simpa using hm
      · split
        simpa using hm

/-- C5: catalog population is idempotent.  When both caches are already
non-empty, an update issues no request for the locations or devices
catalog URL (every newly logged URL differs from both) and reuses the
cached lists unchanged; conversely, when the locations cache is empty
the locations fetch is issued, and when the locations cache is non-empty
but the devices cache is empty the devices fetch is issued — so each
fetch is skipped exactly when its cached collection is non-empty. -/
theorem catalog_population_idempotent (env : Env) (st : AirthingsState) :
    (st.locations ≠ [] → st.devices ≠ [] →
      (update_devices env st).1.locations = st.locations ∧
      (update_devices env st).1.devices = st.devices ∧
      ∀ u ∈ (update_devices env st).1.urls,
        u ∈ st.urls ∨ (u ≠ API_URL ++ "locations" ∧ u ≠ API_URL ++ "devices")) ∧
    (st.locations = [] →
      API_URL ++ "locations" ∈ (update_devices env st).1.urls) ∧
    (st.locations ≠ [] → st.devices = [] →
      API_URL ++ "devices" ∈ (update_devices env st).1.urls) := by
  refine ⟨?_, ?_, ?_⟩
  · intro hl hd
    have h1 : locationsPhase env st = (st, none) := by
      rw [Airthings.locationsPhase, if_neg hl]
    have h2 : devicesPhase env st = (st, none) := by
      rw [Airthings.devicesPhase, if_neg hd]
    have h3 : update_devices env st = sampleLoop env st.locations st [] := by
      simp [Airthings.update_devices, h1, h2]
    obtain ⟨f1, f2, f3, _⟩ := sampleLoop_frame env st.locations st []
    rw [h3]
    refine ⟨f1, f2, fun u hu => ?_⟩
    rcases f3 u hu with h | ⟨l, rfl⟩
    · exact Or.inl h
    · refine Or.inr ⟨?_, ?_⟩
      · intro hc
        have hlen := congrArg String.length hc
        have e1 : API_URL.length = 33 := rfl
        have e4 : ("locations" : String).length = 9 := rfl
        rw [latestSamplesUrl_length, String.length_append, e1, e4] at hlen
        omega
      · intro hc
        have hlen := congrArg String.length hc
        have e1 : API_URL.length = 33 := rfl
        have e5 : ("devices" : String).length = 7 := rfl
        rw [latestSamplesUrl_length, String.length_append, e1, e5] at hlen
        omega
  · intro hl
    rw [Airthings.update_devices]
    have hlog := locationsPhase_logs env st hl
    rcases hp : locationsPhase env st with ⟨st1, e?⟩
    rw [hp] at hlog
    cases e? with
    | some e => simp only [hp]; exact hlog
    | none =>
      simp only [hp]
      have hmono := devicesPhase_urls_mono env st1
      rcases hq : devicesPhase env st1 with ⟨st2, e2⟩
      rw [hq] at hmono
      have hlog2 : API_URL ++ "locations" ∈ st2.urls := hmono _ hlog
      cases e2 with
      | some e => simp only [hq]; exact hlog2
      | none =>
        simp only [hq]
        obtain ⟨_, _, _, m⟩ := sampleLoop_frame env st2.locations st2 []
        exact m _ hlog2
  · intro hl hd
    have h1 : locationsPhase env st = (st, none) := by
      rw [Airthings.locationsPhase, if_neg hl]
    rw [Airthings.update_devices]
    simp only [h1]
    have hlog := devicesPhase_logs env st hd
    rcases hq : devicesPhase env st with ⟨st2, e2⟩
    rw [hq] at hlog
    cases e2 with
    | some e => simp only [hq]; exact hlog
    | none =>
      simp only [hq]
      obtain ⟨_, _, _, m⟩ := sampleLoop_frame env st2.locations st2 []
      exact m _ hlog

/-- Populated locations cache but empty devices cache. -/
def stLocsOnly : AirthingsState :=
  ⟨JVal.jstr "tok123", [⟨JVal.jstr "loc1", JVal.jstr "Home"⟩], [], 0, 0, []⟩

theorem catalog_population_idempotent_witness :
    ((update_devices envOK200 stLoc1).1.locations = stLoc1.locations ∧
     (update_devices envOK200 stLoc1).1.devices = stLoc1.devices ∧
     ∀ u ∈ (update_devices envOK200 stLoc1).1.urls,
       u ∈ stLoc1.urls ∨ (u ≠ API_URL ++ "locations" ∧ u ≠ API_URL ++ "devices")) ∧
    API_URL ++ "locations" ∈ (update_devices envOK200 stFresh).1.urls ∧
    API_URL ++ "devices" ∈ (update_devices envOK200 stLocsOnly).1.urls :=
  ⟨(catalog_population_idempotent envOK200 stLoc1).1 (by decide) (by decide),
   (catalog_population_idempotent envOK200 stFresh).2.1 rfl,
   (catalog_population_idempotent envOK200 stLocsOnly).2.2 (by decide) rfl⟩

/-- A successful attempt: `_request` returns the 200 response after one
HTTP attempt, leaving token and caches untouched. -/
theorem request_ok200 (env : Env) (url : String) (jd : Option JVal) (retry : Nat)
    (st : AirthingsState) (r : String) (b : JVal)
    (htok : st.access_token ≠ JVal.jnull)
    (hhttp : env.http st.httpIdx = NetAttempt.ok 200 r b) :
    _request env url jd retry st =
      ({ st with urls := st.urls ++ [url], httpIdx := st.httpIdx + 1 },
       Except.ok (some ⟨200, r, b⟩)) := by
  cases retry <;> simp [Airthings._request, Airthings._ensureToken, htok, hhttp]

/-- An attempt with no cached token where acquisition yields no token:
`_request` takes the `return None` path without issuing the HTTP call. -/
theorem request_no_token (env : Env) (url : String) (jd : Option JVal) (retry : Nat)
    (st : AirthingsState)
    (htok : st.access_token = JVal.jnull)
    (hget : get_token (env.token st.tokIdx) 0 3 = Except.ok JVal.jnull) :
    _request env url jd retry st =
      ({ st with urls := st.urls ++ [url], access_token := JVal.jnull,
                 tokIdx := st.tokIdx + 1 },
       Except.ok none) := by
  simp [Airthings._request, Airthings._ensureToken, htok, hget]

/-- An attempt with no cached token where acquisition succeeds and the
HTTP call answers 200: `_request` acquires the token once and returns
the response after one HTTP attempt. -/
theorem request_acquire_ok200 (env : Env) (url : String) (jd : Option JVal)
    (retry : Nat) (st : AirthingsState) (r : String) (b t : JVal)
    (htok : st.access_token = JVal.jnull)
    (hget : get_token (env.token st.tokIdx) 0 3 = Except.ok t)
    (ht : t ≠ JVal.jnull)
    (hhttp : env.http st.httpIdx = NetAttempt.ok 200 r b) :
    _request env url jd retry st =
      ({ st with urls := st.urls ++ [url], access_token := t,
                 tokIdx := st.tokIdx + 1, httpIdx := st.httpIdx + 1 },
       Except.ok (some ⟨200, r, b⟩)) := by
  simp [Airthings._request, Airthings._ensureToken, htok, hget, ht, hhttp]

/-- C6: per-location fault isolation.  With a populated catalog of two
locations, where the first location's latest-samples request fails —
either because `_request` returns `None` (no cached token and token
acquisition yields none: the `if response is None: continue` path) or
because the response body parses to `None` (the
`if json_data is None: continue` path) — and the second location
succeeds with one device entry, the update returns a mapping holding
exactly the successful location's device — built from its sample data,
the second location's name and its cached descriptor — and no exception
is raised for the failed location. -/
theorem update_location_fault_isolation (env : Env) (st : AirthingsState)
    (l1 l2 : AirthingsLocation) (r1 r2 : String) (did : String)
    (nm act dat dt pn t : JVal) (gs : List (String × JVal))
    (hlocs : st.locations = [l1, l2])
    (hcache : st.devices ≠ [])
    (hid1 : pyTruthy l1.location_id = true)
    (hid2 : pyTruthy l2.location_id = true)
    (hdesc : dictGet st.devices (JVal.jstr did) = JVal.jobj gs)
    (hdt : fieldGet gs "deviceType" = some dt)
    (hpn : fieldGet gs "productName" = some pn) :
    (st.access_token = JVal.jnull →
     get_token (env.token st.tokIdx) 0 3 = Except.ok JVal.jnull →
     get_token (env.token (st.tokIdx + 1)) 0 3 = Except.ok t →
     t ≠ JVal.jnull →
     env.http st.httpIdx = NetAttempt.ok 200 r2
       (JVal.jobj [("devices", JVal.jarr [JVal.jobj
         [("id", JVal.jstr did),
          ("segment", JVal.jobj [("name", nm), ("isActive", act)]),
          ("data", dat)]])]) →
     (update_devices env st).2 =
       Except.ok [(JVal.jstr did,
         ⟨JVal.jstr did, nm, dat, act, l2.name, dt, pn⟩)]) ∧
    (st.access_token ≠ JVal.jnull →
     env.http st.httpIdx = NetAttempt.ok 200 r1 JVal.jnull →
     env.http (st.httpIdx + 1) = NetAttempt.ok 200 r2
       (JVal.jobj [("devices", JVal.jarr [JVal.jobj
         [("id", JVal.jstr did),
          ("segment", JVal.jobj [("name", nm), ("isActive", act)]),
          ("data", dat)]])]) →
     (update_devices env st).2 =
       Except.ok [(JVal.jstr did,
         ⟨JVal.jstr did, nm, dat, act, l2.name, dt, pn⟩)]) := by
  have hLp : locationsPhase env st = (st, none) := by
    rw [Airthings.locationsPhase, if_neg (by simp [hlocs])]
  have hDp : devicesPhase env st = (st, none) := by
    rw [Airthings.devicesPhase, if_neg hcache]
  have hUp : update_devices env st = sampleLoop env [l1, l2] st [] := by
    simp [Airthings.update_devices, hLp, hDp, hlocs]
  have htr : ∀ (x : JVal) (xs : List JVal), pyTruthy (JVal.jarr (x :: xs)) = true :=
    fun _ _ => rfl
  constructor
  · intro htok0 hg1 hg2 ht h2
    have hreq1 := request_no_token env (latestSamplesUrl l1.location_id) none 3 st
      htok0 hg1
    have hreq2 := request_acquire_ok200 env (latestSamplesUrl l2.location_id) none 3
      { st with urls := st.urls ++ [latestSamplesUrl l1.location_id],
                access_token := JVal.jnull, tokIdx := st.tokIdx + 1 }
      r2 (JVal.jobj [("devices", JVal.jarr [JVal.jobj
          [("id", JVal.jstr did),
           ("segment", JVal.jobj [("name", nm), ("isActive", act)]),
           ("data", dat)]])])
      t rfl (by simpa using hg2) ht (by simpa using h2)
    rw [hUp]
    simp [Airthings.sampleLoop, hid1, hid2, hreq1, hreq2, pyGet, fieldGet, pyIter,
      htr, dictSet, addDevices, AirthingsDevice.init_from_response,
      hdesc, hdt, hpn]
  · intro htok h1 h2
    have hreq1 := request_ok200 env (latestSamplesUrl l1.location_id) none 3 st
      r1 JVal.jnull htok h1
    have hreq2 := request_ok200 env (latestSamplesUrl l2.location_id) none 3
      { st with urls := st.urls ++ [latestSamplesUrl l1.location_id],
                httpIdx := st.httpIdx + 1 }
      r2 (JVal.jobj [("devices", JVal.jarr [JVal.jobj
          [("id", JVal.jstr did),
           ("segment", JVal.jobj [("name", nm), ("isActive", act)]),
           ("data", dat)]])])
      (by simpa using htok) (by simpa using h2)
    rw [hUp]
    simp [Airthings.sampleLoop, hid1, hid2, hreq1, hreq2, pyGet, fieldGet, pyIter,
      htr, dictSet, addDevices, AirthingsDevice.init_from_response,
      hdesc, hdt, hpn]

/-- Latest-samples payload for device `dev-9` at location B. -/
def payloadDev9 : JVal :=
  JVal.jobj [("devices", JVal.jarr [JVal.jobj
    [("id", JVal.jstr "dev-9"),
     ("segment", JVal.jobj [("name", JVal.jstr "Hall"), ("isActive", JVal.jbool true)]),
     ("data", JVal.jobj [])]])]

/-- First latest-samples request gets a null body, the second gets the
`dev-9` payload. -/
def envFault : Env :=
  ⟨tokenOK, fun n => if n = 0 then NetAttempt.ok 200 "OK" JVal.jnull
                     else NetAttempt.ok 200 "OK" payloadDev9⟩

/-- Populated catalog with two locations and a descriptor for `dev-9`. -/
def stTwoLocs : AirthingsState :=
  ⟨JVal.jstr "tok123",
   [⟨JVal.jstr "locA", JVal.jstr "A"⟩, ⟨JVal.jstr "locB", JVal.jstr "B"⟩],
   [(JVal.jstr "dev-9",
     JVal.jobj [("deviceType", JVal.jstr "wave"), ("productName", JVal.jstr "WavePlus")])],
   0, 0, []⟩

/-- Token endpoint whose first invocation answers 200 without an
`access_token` field and whose later invocations supply one. -/
def tokenFlaky : Nat → Nat → NetAttempt :=
  fun j _ =>
    if j = 0 then NetAttempt.ok 200 "OK" (JVal.jobj [])
    else NetAttempt.ok 200 "OK" (JVal.jobj [("access_token", JVal.jstr "tok123")])

/-- First token acquisition yields no token (so the first location's
request returns `None`); every data request answers the `dev-9`
payload. -/
def envFaultNoTok : Env := ⟨tokenFlaky, fun _ => NetAttempt.ok 200 "OK" payloadDev9⟩

/-- Same populated catalog as `stTwoLocs` but with no cached token. -/
def stTwoLocsNoTok : AirthingsState :=
  ⟨JVal.jnull,
   [⟨JVal.jstr "locA", JVal.jstr "A"⟩, ⟨JVal.jstr "locB", JVal.jstr "B"⟩],
   [(JVal.jstr "dev-9",
     JVal.jobj [("deviceType", JVal.jstr "wave"), ("productName", JVal.jstr "WavePlus")])],
   0, 0, []⟩

theorem update_location_fault_isolation_witness :
    (update_devices envFaultNoTok stTwoLocsNoTok).2 =
      Except.ok [(JVal.jstr "dev-9",
        ⟨JVal.jstr "dev-9", JVal.jstr "Hall", JVal.jobj [], JVal.jbool true,
         JVal.jstr "B", JVal.jstr "wave", JVal.jstr "WavePlus"⟩)] ∧
    (update_devices envFault stTwoLocs).2 =
      Except.ok [(JVal.jstr "dev-9",
        ⟨JVal.jstr "dev-9", JVal.jstr "Hall", JVal.jobj [], JVal.jbool true,
         JVal.jstr "B", JVal.jstr "wave", JVal.jstr "WavePlus"⟩)] :=
  ⟨(update_location_fault_isolation envFaultNoTok stTwoLocsNoTok
      ⟨JVal.jstr "locA", JVal.jstr "A"⟩ ⟨JVal.jstr "locB", JVal.jstr "B"⟩
      "OK" "OK" "dev-9" (JVal.jstr "Hall") (JVal.jbool true) (JVal.jobj [])
      (JVal.jstr "wave") (JVal.jstr "WavePlus") (JVal.jstr "tok123")
      [("deviceType", JVal.jstr "wave"), ("productName", JVal.jstr "WavePlus")]
      rfl (by decide) (by decide) (by decide) (by decide) (by decide)
      (by decide)).1
      rfl (by decide) (by decide) (by decide) (by decide),
   (update_location_fault_isolation envFault stTwoLocs
      ⟨JVal.jstr "locA", JVal.jstr "A"⟩ ⟨JVal.jstr "locB", JVal.jstr "B"⟩
      "OK" "OK" "dev-9" (JVal.jstr "Hall") (JVal.jbool true) (JVal.jobj [])
      (JVal.jstr "wave") (JVal.jstr "WavePlus") (JVal.jstr "tok123")
      [("deviceType", JVal.jstr "wave"), ("productName", JVal.jstr "WavePlus")]
      rfl (by decide) (by decide) (by decide) (by decide) (by decide)
      (by decide)).2
      (by decide) (by decide) (by decide)⟩
